import Mathlib

/-!
Verification of the clautify DSL executor (`clautify/dsl/executor.py`).

The executor dispatches parsed DSL command mappings to remote collaborators
(a catalog/search service and a playback control channel).  We embed the
executor shallowly: Python dicts of JSON data become a `Json` inductive,
collaborator calls are recorded in a trace (writer style), failures are
`Except` values whose error constructors mirror the `DSLError` raise sites,
and the remote collaborators are an oracle `Env` of pure response functions.
-/

namespace Clautify

/-- JSON-ish Python values flowing through the executor (API responses). -/
inductive Json where
  | null
  | bool (b : Bool)
  | num (q : ℚ)
  | str (s : String)
  | arr (xs : List Json)
  | obj (kvs : List (String × Json))

/-- First-match association lookup, mirroring a Python `dict` keyed by strings
(keys are unique in dicts produced by the API, so first match is the match). -/
def lookupKey : List (String × Json) → String → Option Json
  | [], _ => none
  | (k, v) :: rest, key => if k == key then some v else lookupKey rest key

/-- Python truthiness (`bool(x)`) of a JSON value. -/
def Json.truthy : Json → Bool
  | .null => false
  | .bool b => b
  | .num q => q != 0
  | .str s => s != ""
  | .arr xs => !xs.isEmpty
  | .obj kvs => !kvs.isEmpty

/-- Truthiness of an optional value (`none` is Python `None`, falsy). -/
def optTruthy (o : Option Json) : Bool := (o.getD .null).truthy

/-- `_deep_get(data, *keys, default=None)` from `executor.py`: traverse nested
dicts by key path; any miss (non-dict node, absent key, or a stored `None`,
which Python `dict.get` conflates with absence) yields the default (`none`). -/
def deep_get : Json → List String → Option Json
  | d, [] => some d
  | .obj kvs, k :: ks =>
      match lookupKey kvs k with
      | none => none
      | some .null => none
      | some v => deep_get v ks
  | _, _ :: _ => none

/-- `[a-zA-Z0-9]` (ASCII letters and digits), as in `_BARE_ID_RE`. -/
def isAlnumAscii (c : Char) : Bool := c.isAlpha || c.isDigit

/-- Exactly 22 ASCII-alphanumeric characters. -/
def bareIdChars (cs : List Char) : Bool := cs.length == 22 && cs.all isAlnumAscii

/-- `_is_bare_id` from `executor.py`: `re.match(r"^[a-zA-Z0-9]\x7b22\x7d$", s)`.
Python's `$` also matches just before a single trailing newline, so a
22-alphanumeric string followed by one `\n` matches as well. -/
def is_bare_id (s : String) : Bool :=
  bareIdChars s.toList ||
    (match s.toList.getLast? with
     | some c => c == '\n' && bareIdChars s.toList.dropLast
     | none => false)

/-- `_SEARCH_SECTION_PATH` from `executor.py`. -/
def SEARCH_SECTION_PATH (kind : String) : Option (List String) :=
  if kind == "track" then some ["data", "searchV2", "tracksV2", "items"]
  else if kind == "album" then some ["data", "searchV2", "albumsV2", "items"]
  else if kind == "playlist" then some ["data", "searchV2", "playlists", "items"]
  else none

/-- `_LIBRARY_FILTERS` from `executor.py` (missing kinds give `[]` via
`dict.get(kind, [])` at the call site). -/
def LIBRARY_FILTERS (kind : String) : List String :=
  if kind == "playlist" then ["Playlists"]
  else if kind == "artist" then ["Artists"]
  else if kind == "album" then ["Albums"]
  else if kind == "track" then []
  else []

/-- Character-list test that `pat` is a leading segment of `s`. -/
def leadsWith : List Char → List Char → Bool
  | _, [] => true
  | [], _ :: _ => false
  | a :: as, b :: bs => a == b && leadsWith as bs

/-- Worker for Python `str.split(sep)` (nonempty `sep`) over character
lists; the fuel is an upper bound on steps (each step consumes at least one
character), so with fuel `length + 1` it is never exhausted. -/
def splitOnAux (sep : List Char) : Nat → List Char → List Char → List (List Char)
  | 0, s, acc => [acc.reverse ++ s]
  | fuel + 1, s, acc =>
      match s with
      | [] => [acc.reverse]
      | c :: rest =>
          if leadsWith s sep then acc.reverse :: splitOnAux sep fuel (s.drop sep.length) []
          else splitOnAux sep fuel rest (c :: acc)

/-- Python `s.split(sub)` for nonempty `sub` (all source call sites pass a
nonempty separator). -/
def pySplit (s sub : String) : List String :=
  (splitOnAux sub.data (s.data.length + 1) s.data []).map String.mk

/-- Python `sub in s` substring test (callers only use nonempty `sub`). -/
def strContains (s sub : String) : Bool := (pySplit s sub).length != 1

/-- `extract_spotify_id` from `clautify/utils/strings.py`: strip a
`spotify:<kind>:` prefix, else take the segment after the last `<kind>/` up to
a `?`, else the segment after the last `<kind>:`, else pass through. -/
def extract_spotify_id (identifier : String) (kind : String) : String :=
  let pfx := "spotify:" ++ kind ++ ":"
  if leadsWith identifier.data pfx.data then identifier.drop pfx.length
  else if strContains identifier (kind ++ "/") then
    (pySplit ((pySplit identifier (kind ++ "/")).getLastD identifier) "?").headD ""
  else if strContains identifier (kind ++ ":") then
    (pySplit identifier (kind ++ ":")).getLastD identifier
  else identifier

/-- ASCII-case-folded string comparison base (models Python `str.lower()`;
the executor only compares artist/device names, where ASCII folding is the
observable behavior). -/
def pyLower (s : String) : String := String.mk (s.data.map Char.toLower)

/-- Python `int()` truncation toward zero of a rational. -/
def ratTrunc (q : ℚ) : Int :=
  if q < 0 then -(((-q).num.toNat / q.den : Nat) : Int) else ((q.num.toNat / q.den : Nat) : Int)

/-- Modelled from the spec: a device entry of the playback channel's live
state (`clautify.types.data.Devices` is not in the source tree): display
name, device id, and a raw volume on the channel's native 0..65535 scale. -/
structure Device where
  device_id : String
  name : String
  volume : ℚ
deriving DecidableEq

/-- `DSLError` raise sites of `executor.py`, one constructor per message
shape.  `wrapped` stands for a non-DSL collaborator/runtime exception caught
at the dispatch boundary of `_execute_once` and wrapped into a `DSLError`. -/
inductive Err where
  | noResults (name : String)
  | invalidCommand
  | unknownAction (a : String)
  | unknownQuery (q : String)
  | invalidVolume (v : ℚ)
  | volumeUnavailable
  | deviceNotFound (name : String) (available : List String)
  | queueOnlyTracks (kind : String)
  | albumLibraryUnsupported
  | cannotInfoKind (kind : String)
  | wrapped (msg : String)
deriving DecidableEq

/-- One observable collaborator call made by the executor.  Catalog calls
mirror the `Song`/`Artist`/`PublicAlbum`/`PublicPlaylist`/`PrivatePlaylist`
methods of the source; playback calls are modelled from the spec's playback
control channel interface (the `Player` class is not in the source tree). -/
inductive Call where
  | querySongs (name : String) (limit offset : Nat)
  | queryArtists (name : String) (limit offset : Nat)
  | getArtist (id : String)
  | getTrackInfo (id : String)
  | getAlbumInfo (id : String) (limit offset : Nat)
  | getPlaylistInfo (id : String) (limit offset : Nat)
  | getLibrary (limit offset : Nat) (filters : List String)
  | recommendedSongs (playlistId : String) (n : Int)
  | likeSong (id : String)
  | unlikeSong (id : String)
  | followArtist (id : String)
  | unfollowArtist (id : String)
  | addToLibrary (playlistId : String)
  | removeFromLibrary (playlistId : String)
  | addSongToPlaylist (playlistId songId : String)
  | removeSongFromPlaylist (playlistId songId : String)
  | createPlaylist (name : String)
  | deletePlaylist (playlistId : String)
  | pause
  | resume
  | skipNext
  | skipPrev
  | seekTo (ms : Int)
  | addToQueue (uri : Json)
  | playTrack (uri contextUri : Json)
  | playContext (uri : Json)
  | setVolume (v : ℚ)
  | setShuffle (b : Bool)
  | repeatTrack (b : Bool)
  | transferPlayer (fromId toId : String)
  | getDeviceIds
  | getState
  | getQueue
  | getHistory

/-- Executor computations: an `Except` outcome together with the trace of
collaborator calls issued up to the point of return or failure. -/
structure M (α : Type) : Type where
  res : Except Err α
  calls : List Call

namespace M

def pure (a : α) : M α := ⟨.ok a, []⟩

def bind (x : M α) (f : α → M β) : M β :=
  match x with
  | ⟨.error e, tr⟩ => ⟨.error e, tr⟩
  | ⟨.ok a, tr⟩ => ⟨(f a).res, tr ++ (f a).calls⟩

end M

instance : Monad M where
  pure := M.pure
  bind := M.bind

/-- Record one collaborator call. -/
def tell (c : Call) : M Unit := ⟨.ok (), [c]⟩

/-- Raise a `DSLError`. -/
def throwE (e : Err) : M α := ⟨.error e, []⟩

/-- Python `cmd["k"]` on an optional field: `KeyError` (wrapped at the
dispatch boundary into a `DSLError`) when the key is absent. -/
def getReq (o : Option α) : M α :=
  match o with
  | some a => M.pure a
  | none => throwE (.wrapped "KeyError")

/-- Run a computation on `some` payload, no-op on `none` (Python
`if k in cmd:` guarded blocks). -/
def whenSome : Option α → (α → M Unit) → M Unit
  | some a, f => f a
  | none, _ => M.pure ()

/-- Emit the same call `n` times (Python `for _ in range(n)`). -/
def tellN (c : Call) : Nat → M Unit
  | 0 => M.pure ()
  | n + 1 => M.bind (tell c) (fun _ => tellN c n)

/-- The collaborator oracle: pure response functions for catalog queries and
the live playback-channel state consumed by the executor.  Catalog responses
are arbitrary `Json`; the device list models the channel's `device_ids`
mapping (insertion-ordered dict from device id to device). -/
structure Env where
  querySongs : String → Nat → Nat → Json
  queryArtists : String → Nat → Nat → Json
  getArtist : String → Json
  getTrackInfo : String → Json
  getAlbumInfo : String → Nat → Nat → Json
  getPlaylistInfo : String → Nat → Nat → Json
  getLibrary : Nat → Nat → List String → Json
  recommendedSongs : String → Int → Json
  createPlaylistId : String → String
  devices : List (String × Device)
  activeId : Option String
  currentDeviceId : String
  playerState : Json
  queueItems : List Json
  historyItems : List Json

/-- A parsed command mapping (`Dict[str, Any]` at the parser/executor
boundary).  Absent dict keys are `none`. -/
structure Cmd where
  action : Option String := none
  query : Option String := none
  kind : Option String := none
  target : Option String := none
  targets : Option (List String) := none
  context : Option String := none
  context_kind : Option String := none
  n : Option Int := none
  position_s : Option ℚ := none
  volume : Option ℚ := none
  volume_rel : Option ℚ := none
  mode : Option String := none
  device : Option String := none
  terms : Option (List String) := none
  limit : Option Nat := none
  offset : Option Nat := none
deriving DecidableEq

/-- A result mapping returned by the executor.  Optional fields model
presence/absence of the corresponding dict keys. -/
structure Res where
  status : String := "ok"
  action : Option String := none
  query : Option String := none
  kind : Option String := none
  target : Option String := none
  targets : Option (List String) := none
  context : Option String := none
  context_kind : Option (Option String) := none
  n : Option Int := none
  position_s : Option Int := none
  volume : Option ℚ := none
  volume_rel : Option ℚ := none
  mode : Option String := none
  device : Option String := none
  resolved_uri : Option Json := none
  data : Option Json := none
  terms : Option (List String) := none
  limit : Option Nat := none
  playlist_id : Option String := none
  now_playing : Option Json := none
  queueList : Option (List Json) := none
  devicesDump : Option (List (String × Device)) := none
  historyList : Option (List Json) := none

/-- Python `uri != target` comparison in `_action_play` (the literal target
is a `str`; equality with a non-string value is `False`). -/
def jsonEqStr : Json → String → Bool
  | .str s, t => s == t
  | _, _ => false

/-- Python `items[0]` on an arbitrary value: list indexing, string indexing
(yields a one-character string), `KeyError` on a string-keyed dict, and
`TypeError` otherwise — the latter two wrapped at the dispatch boundary. -/
def pyIndex0 : Json → M Json
  | .arr (x :: _) => M.pure x
  | .arr [] => throwE (.wrapped "IndexError")
  | .str s => if s == "" then throwE (.wrapped "IndexError") else M.pure (.str (s.take 1))
  | .obj _ => throwE (.wrapped "KeyError")
  | _ => throwE (.wrapped "TypeError")

/-- `_extract_id(uri, kind)` applied to a resolver output: `extract_spotify_id`
needs a `str`; any other value crashes (`AttributeError`, wrapped at the
dispatch boundary). -/
def extract_id (uri : Json) (kind : String) : M String :=
  match uri with
  | .str s => M.pure (extract_spotify_id s kind)
  | _ => throwE (.wrapped "AttributeError")

/-- Inner walk of `_extract_search_section`: follow the path with `{}` as the
per-step `dict.get` default; hitting a non-dict node returns the ORIGINAL
`raw` response (source behavior, not the partial node). -/
def sectionWalk (raw : Json) : Json → List String → Json
  | result, [] => result
  | result, k :: ks =>
      match result with
      | .obj kvs => sectionWalk raw ((lookupKey kvs k).getD (.obj [])) ks
      | _ => raw

/-- `_extract_search_section` from `executor.py`. -/
def extract_search_section (raw : Json) (kind : String) : Json :=
  match SEARCH_SECTION_PATH kind with
  | none => raw
  | some path => sectionWalk raw raw path

/-- `SpotifyExecutor._search_and_resolve`: query the artist collaborator for
`kind = "artist"`, otherwise the song collaborator, always with `limit=1`
(offset is the collaborator's default 0); extract the kind-specific section
and take item 0's uri (`track` reads one level deeper, inside the wrapping
item object); empty/non-list sections and falsy uris raise `No results`. -/
def search_and_resolve (env : Env) (kind name : String) : M (Json) := do
  let uri ←
    if kind == "artist" then do
      tell (.queryArtists name 1 0)
      let raw := env.queryArtists name 1 0
      let items := (deep_get raw ["data", "searchV2", "artists", "items"]).getD (.arr [])
      if !items.truthy then throwE (.noResults name)
      else do
        let first ← pyIndex0 items
        M.pure (deep_get first ["data", "uri"])
    else do
      tell (.querySongs name 1 0)
      let raw := env.querySongs name 1 0
      match extract_search_section raw kind with
      | .arr [] => throwE (.noResults name)
      | .arr (x :: _) =>
          if kind == "track" then M.pure (deep_get x ["item", "data", "uri"])
          else M.pure (deep_get x ["data", "uri"])
      | _ => throwE (.noResults name)
  if !optTruthy uri then throwE (.noResults name)
  else M.pure (uri.getD .null)

/-- `SpotifyExecutor._resolve_target`: bare ids are used directly as
`spotify:<kind>:<id>`; anything else resolves through search. -/
def resolve_target (env : Env) (kind target : String) : M Json :=
  if is_bare_id target then M.pure (.str ("spotify:" ++ kind ++ ":" ++ target))
  else search_and_resolve env kind target

/-- `SpotifyExecutor._resolve_device_id`: case-insensitive exact match on the
display names of the live device list; failure lists available names. -/
def resolve_device_id (env : Env) (name : String) : M String := do
  tell .getDeviceIds
  match env.devices.find? (fun (p : String × Device) => pyLower p.2.name == pyLower name) with
  | some p => M.pure p.2.device_id
  | none =>
      throwE (.deviceNotFound name (env.devices.map (fun (p : String × Device) => p.2.name)))

/-- `SpotifyExecutor._apply_state_modifiers`: absolute volume (validated to
0..100, normalized with the session ceiling), relative volume (read the
active device's raw 0..65535 volume from live state), mode, and device
transfer — in that order. -/
def apply_state_modifiers (env : Env) (ceiling : ℚ) (cmd : Cmd) : M Unit := do
  whenSome cmd.volume (fun vol =>
    if vol < 0 ∨ 100 < vol then throwE (.invalidVolume vol)
    else tell (.setVolume (min (vol / 100) ceiling)))
  whenSome cmd.volume_rel (fun delta => do
    tell .getDeviceIds
    let dev : Option Device :=
      match env.activeId with
      | none => none
      | some aid =>
          (env.devices.find? (fun (p : String × Device) => p.1 == aid)).map
            (fun (p : String × Device) => p.2)
    match dev with
    | none => throwE .volumeUnavailable
    | some d => tell (.setVolume (max 0 (min ceiling (d.volume / 65535 + delta / 100)))))
  whenSome cmd.mode (fun mode => do
    tell (.setShuffle (mode == "shuffle"))
    tell (.repeatTrack (mode == "repeat")))
  whenSome cmd.device (fun name => do
    let device_id ← resolve_device_id env name
    tell (.transferPlayer env.currentDeviceId device_id))

/-- `SpotifyExecutor._action_play`: resolve the target; with a truthy context,
resolve it too and `play_track`, else `play_context`; attach `resolved_uri`
exactly when the resolved uri differs from the literal target. -/
def action_play (env : Env) (cmd : Cmd) : M Res := do
  let kind ← getReq cmd.kind
  let target ← getReq cmd.target
  let uri ← resolve_target env kind target
  let result ←
    if (cmd.context.getD "") != "" then do
      let ctx := cmd.context.getD ""
      let context_uri ← resolve_target env (cmd.context_kind.getD "None") ctx
      tell (.playTrack uri context_uri)
      M.pure { status := "ok", action := some "play", kind := some kind, target := some target,
               context_kind := some cmd.context_kind, context := some ctx : Res }
    else do
      tell (.playContext uri)
      M.pure { status := "ok", action := some "play", kind := some kind, target := some target : Res }
  if !(jsonEqStr uri target) then M.pure { result with resolved_uri := some uri }
  else M.pure result

/-- `SpotifyExecutor._action_skip`. -/
def action_skip (cmd : Cmd) : M Res := do
  let n := cmd.n.getD 1
  tellN (if 0 ≤ n then Call.skipNext else Call.skipPrev) n.natAbs
  M.pure { status := "ok", action := some "skip", n := some n }

/-- `SpotifyExecutor._action_seek`. -/
def action_seek (cmd : Cmd) : M Res := do
  let q ← getReq cmd.position_s
  let position_s := ratTrunc q
  tell (.seekTo (position_s * 1000))
  M.pure { status := "ok", action := some "seek", position_s := some position_s }

/-- The per-target loop of `SpotifyExecutor._action_queue`: resolve and
enqueue in list order, collecting the processed targets. -/
def queue_loop (env : Env) (kind : String) : List String → M (List String)
  | [] => M.pure []
  | t :: ts => do
    let uri ← resolve_target env kind t
    tell (.addToQueue uri)
    let rest ← queue_loop env kind ts
    M.pure (t :: rest)

/-- `SpotifyExecutor._action_queue`: tracks only; resolve and enqueue each
target in order. -/
def action_queue (env : Env) (cmd : Cmd) : M Res := do
  let kind ← getReq cmd.kind
  if kind != "track" then throwE (.queueOnlyTracks kind)
  else do
    let targets ← getReq cmd.targets
    let queued ← queue_loop env kind targets
    M.pure { status := "ok", action := some "queue", kind := some kind, targets := some queued }

/-- One iteration of the `_action_library_add` loop: resolve the target,
extract its bare id, then route to playlist membership (truthy context) or
the per-kind library toggle; `album` is unsupported. -/
def lib_add_step (env : Env) (cmd : Cmd) (kind : String) (target : String) : M Unit := do
  let uri ← resolve_target env kind target
  let bare_id ← extract_id uri kind
  if (cmd.context.getD "") != "" then do
    let playlist_uri ← resolve_target env (cmd.context_kind.getD "None") (cmd.context.getD "")
    let pl_id ← extract_id playlist_uri "playlist"
    tell (.addSongToPlaylist pl_id bare_id)
  else if kind == "track" then tell (.likeSong bare_id)
  else if kind == "artist" then tell (.followArtist bare_id)
  else if kind == "playlist" then tell (.addToLibrary bare_id)
  else if kind == "album" then throwE .albumLibraryUnsupported
  else M.pure ()

/-- One iteration of the `_action_library_remove` loop. -/
def lib_remove_step (env : Env) (cmd : Cmd) (kind : String) (target : String) : M Unit := do
  let uri ← resolve_target env kind target
  let bare_id ← extract_id uri kind
  if (cmd.context.getD "") != "" then do
    let playlist_uri ← resolve_target env (cmd.context_kind.getD "None") (cmd.context.getD "")
    let pl_id ← extract_id playlist_uri "playlist"
    tell (.removeSongFromPlaylist pl_id bare_id)
  else if kind == "track" then tell (.unlikeSong bare_id)
  else if kind == "artist" then tell (.unfollowArtist bare_id)
  else if kind == "playlist" then tell (.removeFromLibrary bare_id)
  else if kind == "album" then throwE .albumLibraryUnsupported
  else M.pure ()

/-- Sequential per-target loop shared by the library mutations (`for target
in targets:`). -/
def lib_loop (step : String → M Unit) : List String → M Unit
  | [] => M.pure ()
  | t :: ts => do
    step t
    lib_loop step ts

/-- `SpotifyExecutor._action_library_add`. -/
def action_library_add (env : Env) (cmd : Cmd) : M Res := do
  let kind ← getReq cmd.kind
  let targets ← getReq cmd.targets
  lib_loop (lib_add_step env cmd kind) targets
  M.pure { status := "ok", action := some "library_add", kind := some kind,
           targets := some targets }

/-- `SpotifyExecutor._action_library_remove`. -/
def action_library_remove (env : Env) (cmd : Cmd) : M Res := do
  let kind ← getReq cmd.kind
  let targets ← getReq cmd.targets
  lib_loop (lib_remove_step env cmd kind) targets
  M.pure { status := "ok", action := some "library_remove", kind := some kind,
           targets := some targets }

/-- `SpotifyExecutor._action_library_create`. -/
def action_library_create (env : Env) (cmd : Cmd) : M Res := do
  let name ← getReq cmd.target
  tell (.createPlaylist name)
  M.pure { status := "ok", action := some "library_create", kind := some "playlist",
           target := some name, playlist_id := some (env.createPlaylistId name) }

/-- `SpotifyExecutor._action_library_delete`. -/
def action_library_delete (env : Env) (cmd : Cmd) : M Res := do
  let target ← getReq cmd.target
  let uri ← resolve_target env "playlist" target
  let pid ← extract_id uri "playlist"
  tell (.deletePlaylist pid)
  M.pure { status := "ok", action := some "library_delete", kind := some "playlist",
           target := some target }

/-- The per-name handler step of `_dispatch_action`: `pause`/`resume` go
straight to the channel, `set` echoes its modifier fields from the command,
all other names go through the per-name handler lookup, with `Unknown
action` on a miss. -/
def action_handler_result (env : Env) (cmd : Cmd) (action : String) : M Res :=
  if action == "pause" then do
    tell .pause
    M.pure { status := "ok", action := some action : Res }
  else if action == "resume" then do
    tell .resume
    M.pure { status := "ok", action := some action : Res }
  else if action == "set" then
    M.pure { status := "ok", action := some "set", volume := cmd.volume,
             volume_rel := cmd.volume_rel, mode := cmd.mode, device := cmd.device : Res }
  else if action == "play" then action_play env cmd
  else if action == "skip" then action_skip cmd
  else if action == "seek" then action_seek cmd
  else if action == "queue" then action_queue env cmd
  else if action == "library_add" then action_library_add env cmd
  else if action == "library_remove" then action_library_remove env cmd
  else if action == "library_create" then action_library_create env cmd
  else if action == "library_delete" then action_library_delete env cmd
  else throwE (.unknownAction action)

/-- `SpotifyExecutor._dispatch_action`: run the named handler, then the
state modifiers, then clamp an echoed absolute volume to
`min(volume, ceiling*100)`. -/
def dispatch_action (env : Env) (ceiling : ℚ) (cmd : Cmd) : M Res := do
  let action ← getReq cmd.action
  let result ← action_handler_result env cmd action
  apply_state_modifiers env ceiling cmd
  if cmd.volume.isSome && result.volume.isSome then
    M.pure { result with volume := some (min (cmd.volume.getD 0) (ceiling * 100)) }
  else M.pure result

/-- Python `d[k]` strict indexing by a string key: `KeyError` on a missing
dict key, `TypeError` on any non-dict (both members of the caught class pair
in `_query_search`). -/
def pyGetItem : Json → String → Except Unit Json
  | .obj kvs, k =>
      match lookupKey kvs k with
      | some v => .ok v
      | none => .error ()
  | _, _ => .error ()

/-- Chained strict indexing `raw[k1][k2]...` (first failure aborts). -/
def pyPath : Json → List String → Except Unit Json
  | j, [] => .ok j
  | j, k :: ks =>
      match pyGetItem j k with
      | .ok v => pyPath v ks
      | .error _ => .error ()

/-- Python `list.extend(x)` reach of the artist-search try block in
`_query_search`: lists extend element-wise, strings extend per character,
dicts extend with their keys; anything else is a `TypeError` swallowed by
the surrounding `except (KeyError, TypeError): pass`. -/
def pyExtendItems : Json → Option (List Json)
  | .arr xs => some xs
  | .str s => some (s.toList.map (fun c => Json.str (String.singleton c)))
  | .obj kvs => some (kvs.map (fun p => Json.str p.1))
  | _ => none

/-- One term of the `_query_search` loop: artist terms go to the artist
collaborator (items fetched by strict indexing, misses swallowed), other
kinds go to the song collaborator and keep only list-shaped sections. -/
def search_one_term (env : Env) (kind : String) (limit offset : Nat) (term : String) :
    M (List Json) := do
  if kind == "artist" then do
    tell (.queryArtists term limit offset)
    let raw := env.queryArtists term limit offset
    match pyPath raw ["data", "searchV2", "artists", "items"] with
    | .ok v => M.pure ((pyExtendItems v).getD [])
    | .error _ => M.pure []
  else do
    tell (.querySongs term limit offset)
    let raw := env.querySongs term limit offset
    match extract_search_section raw kind with
    | .arr xs => M.pure xs
    | _ => M.pure []

/-- The term loop of `_query_search`, concatenating per-term results. -/
def search_terms_loop (env : Env) (kind : String) (limit offset : Nat) :
    List String → M (List Json)
  | [] => M.pure []
  | t :: ts => do
    let items ← search_one_term env kind limit offset t
    let rest ← search_terms_loop env kind limit offset ts
    M.pure (items ++ rest)

/-- `SpotifyExecutor._query_search`, including the artist auto-promotion:
with exactly one term, a nonempty result list whose top item's display name
matches the term case-insensitively, and a truthy top uri, the raw ranked
list is replaced by a full `info` response. -/
def query_search (env : Env) (cmd : Cmd) : M Res := do
  let terms ← getReq cmd.terms
  let kind ← getReq cmd.kind
  let limit := cmd.limit.getD 10
  let offset := cmd.offset.getD 0
  let all_results ← search_terms_loop env kind limit offset terms
  let searchRes : Res := { status := "ok", query := some "search", kind := some kind,
                           terms := some terms, data := some (.arr all_results) }
  if kind == "artist" && terms.length == 1 && !all_results.isEmpty then
    match (deep_get (all_results.headD .null) ["data", "profile", "name"]).getD (.str "") with
    | .str first_name =>
      if pyLower first_name == pyLower (terms.headD "") then
        let uriJ := (deep_get (all_results.headD .null) ["data", "uri"]).getD (.str "")
        if uriJ.truthy then do
          let bare_id ← extract_id uriJ "artist"
          tell (.getArtist bare_id)
          M.pure { status := "ok", query := some "info", kind := some "artist",
                   target := some first_name, data := some (env.getArtist bare_id) : Res }
        else M.pure searchRes
      else M.pure searchRes
    | _ => throwE (.wrapped "AttributeError")
  else M.pure searchRes

/-- `SpotifyExecutor._query_status`. -/
def query_status (env : Env) (cmd : Cmd) : M Res := do
  let limit := cmd.limit.getD 5
  tell .getState
  tell .getQueue
  tell .getDeviceIds
  tell .getHistory
  M.pure { status := "ok", query := some "status", limit := some limit,
           now_playing := some env.playerState,
           queueList := some (env.queueItems.take limit),
           devicesDump := some env.devices,
           historyList := some (env.historyItems.take limit) }

/-- `SpotifyExecutor._query_info`. -/
def query_info (env : Env) (cmd : Cmd) : M Res := do
  let kind ← getReq cmd.kind
  let target ← getReq cmd.target
  let uri ← resolve_target env kind target
  let bare_id ← extract_id uri kind
  let limit := cmd.limit.getD 25
  let offset := cmd.offset.getD 0
  let data ←
    if kind == "track" then do
      tell (.getTrackInfo bare_id)
      M.pure (env.getTrackInfo bare_id)
    else if kind == "artist" then do
      tell (.getArtist bare_id)
      M.pure (env.getArtist bare_id)
    else if kind == "album" then do
      tell (.getAlbumInfo bare_id limit offset)
      M.pure (env.getAlbumInfo bare_id limit offset)
    else if kind == "playlist" then do
      tell (.getPlaylistInfo bare_id limit offset)
      M.pure (env.getPlaylistInfo bare_id limit offset)
    else throwE (.cannotInfoKind kind)
  M.pure { status := "ok", query := some "info", kind := some kind, target := some target,
           data := some data }

/-- `SpotifyExecutor._query_library_list`. -/
def query_library_list (env : Env) (cmd : Cmd) : M Res := do
  let kind ← getReq cmd.kind
  let filters := LIBRARY_FILTERS kind
  let limit := cmd.limit.getD 50
  let offset := cmd.offset.getD 0
  tell (.getLibrary limit offset filters)
  M.pure { status := "ok", query := some "library_list", kind := some kind,
           data := some (env.getLibrary limit offset filters), limit := some limit }

/-- `SpotifyExecutor._query_recommend`. -/
def query_recommend (env : Env) (cmd : Cmd) : M Res := do
  let context ← getReq cmd.context
  let context_kind ← getReq cmd.context_kind
  let kind ← getReq cmd.kind
  let n := cmd.n.getD 20
  let uri ← resolve_target env context_kind context
  let pid ← extract_id uri "playlist"
  tell (.recommendedSongs pid n)
  M.pure { status := "ok", query := some "recommend", kind := some kind,
           context := some context, n := some n, data := some (env.recommendedSongs pid n) }

/-- `SpotifyExecutor._dispatch_query`: per-name handler lookup, `Unknown
query` on a miss. -/
def dispatch_query (env : Env) (cmd : Cmd) : M Res := do
  let query ← getReq cmd.query
  if query == "search" then query_search env cmd
  else if query == "status" then query_status env cmd
  else if query == "info" then query_info env cmd
  else if query == "library_list" then query_library_list env cmd
  else if query == "recommend" then query_recommend env cmd
  else throwE (.unknownQuery query)

/-- `SpotifyExecutor._execute_once`: an `action` key dispatches as an action
(checked first), else a `query` key dispatches as a query, else the command
is structurally invalid.  DSL errors pass through unchanged; non-DSL
exceptions are wrapped (the wrapping is built into the `Err.wrapped` raise
sites of this model). -/
def execute_once (env : Env) (ceiling : ℚ) (cmd : Cmd) : M Res :=
  if cmd.action.isSome then dispatch_action env ceiling cmd
  else if cmd.query.isSome then dispatch_query env cmd
  else throwE .invalidCommand

/-! ### The retry wrapper `SpotifyExecutor.execute`

`execute` wraps `_execute_once` in a one-retry policy driven by exception
classes.  We embed it over an abstract family of attempt outcomes (the
wrapper never inspects the dispatch beyond its raised exception class), plus
an explicit model of the lazily rebuilt `playbackChannel` slot
(`self._player` / the `player` property / `_reset_player`). -/

/-- The `__cause__` of a caught exception: a `WebSocketError`, some other
exception, or no cause at all. -/
inductive Cause where
  | ws
  | nonws
  | noCause
deriving DecidableEq

/-- How `execute` classifies a failed `_execute_once` attempt: a `DSLError`
carrying its `__cause__`, a raw `WebSocketError`, or any other exception
(which `except (WebSocketError, DSLError)` does not even catch). -/
inductive XErr where
  | dslErr (cause : Cause)
  | wsErr
  | otherErr
deriving DecidableEq

/-- The retry condition of `execute`: with
`inner = first.__cause__ if isinstance(first, DSLError) else first`, retry
iff `inner` or `first` is a `WebSocketError`.  An uncaught non-(WS|DSL)
exception also propagates without retry. -/
def transient : XErr → Bool
  | .dslErr .ws => true
  | .wsErr => true
  | _ => false

/-- The `self._player` slot: an optional live handle plus a generation
counter, so that a handle constructed after a teardown is observably fresh. -/
structure PlayerSlot where
  handle : Option Nat
  nextGen : Nat
deriving DecidableEq

/-- The lazy `player` property: reuse the live handle, or construct a fresh
one (new generation) when the slot is empty. -/
def getPlayer (s : PlayerSlot) : Nat × PlayerSlot :=
  match s.handle with
  | some h => (h, s)
  | none => (s.nextGen, { handle := some s.nextGen, nextGen := s.nextGen + 1 })

/-- Observable events of the retry wrapper: dispatch attempts (numbered) and
the WebSocket close performed by a teardown. -/
inductive RetryEv where
  | attempt (k : Nat)
  | wsClose
deriving DecidableEq

/-- `SpotifyExecutor._reset_player`: when a handle is live, close its socket
(exceptions swallowed) and clear the slot; a no-op when none exists. -/
def reset_player (s : PlayerSlot) : PlayerSlot × List RetryEv :=
  match s.handle with
  | some _ => ({ handle := none, nextGen := s.nextGen }, [.wsClose])
  | none => (s, [])

/-- The inner `try/except` of the second attempt: a `DSLError` is re-raised
unchanged; any other exception `e` is wrapped as `DSLError(...) from e`. -/
def wrap_second : XErr → XErr
  | .dslErr c => .dslErr c
  | .wsErr => .dslErr .ws
  | .otherErr => .dslErr .nonws

/-- Combined outcome of `execute`: final result, player slot, and events. -/
structure RetryOut (α : Type) where
  res : Except XErr α
  slot : PlayerSlot
  evs : List RetryEv

/-- `SpotifyExecutor.execute` over the abstract attempt family `att` (the
outcome of `_execute_once` on attempt 1 resp. 2): try once; on a transient
failure tear the player down and try exactly once more, wrapping a non-DSL
second failure; on a non-transient failure propagate immediately. -/
def execute_retry (att : Nat → Except XErr α) (s : PlayerSlot) : RetryOut α :=
  match att 1 with
  | .ok r => { res := .ok r, slot := s, evs := [.attempt 1] }
  | .error first =>
    if transient first then
      let rs := reset_player s
      match att 2 with
      | .ok r => { res := .ok r, slot := rs.1, evs := [.attempt 1] ++ rs.2 ++ [.attempt 2] }
      | .error second =>
          { res := .error (wrap_second second), slot := rs.1,
            evs := [.attempt 1] ++ rs.2 ++ [.attempt 2] }
    else { res := .error first, slot := s, evs := [.attempt 1] }

/-! ### Call classifiers and concrete fixtures used by witnesses -/

/-- Is this call a `setVolume` write on the playback channel? -/
def isSetVolumeCall : Call → Bool
  | .setVolume _ => true
  | _ => false

/-- Is this call a full-metadata artist fetch (`get_artist`)? -/
def isGetArtistCall : Call → Bool
  | .getArtist _ => true
  | _ => false

/-- Is this call an `add_to_queue` enqueue on the playback channel? -/
def isAddToQueueCall : Call → Bool
  | .addToQueue _ => true
  | _ => false

/-- Is this call a catalog search (`query_songs` or `query_artists`)? -/
def isSearchCall : Call → Bool
  | .querySongs _ _ _ => true
  | .queryArtists _ _ _ => true
  | _ => false

/-- The single search call `_search_and_resolve` issues for a kind/name:
the artist collaborator for `kind=artist`, else the song collaborator,
always with `limit=1` (offset left at the collaborator default 0). -/
def searchCallOf (kind name : String) : Call :=
  if kind == "artist" then .queryArtists name 1 0 else .querySongs name 1 0

/-- The per-kind nesting of the uri inside item 0 of the search section:
`track` reads one level deeper (inside the wrapping `item` object) than
`album`/`playlist`. -/
def uriPathOf (kind : String) : List String :=
  if kind == "track" then ["item", "data", "uri"] else ["data", "uri"]

/-- The uri a successful resolution of the target yields (placeholder `null`
when the resolution fails; used only to state trace shapes). -/
def resolvedUriD (env : Env) (kind t : String) : Json :=
  match (resolve_target env kind t).res with
  | .ok u => u
  | .error _ => .null

/-- The trace the queue loop produces target by target: the resolution calls
of each target followed by its enqueue (when the resolution succeeded), in
list order. -/
def queueTrace (env : Env) : List String → List Call
  | [] => []
  | t :: ts =>
      (resolve_target env "track" t).calls ++
        (match (resolve_target env "track" t).res with
         | .ok u => [Call.addToQueue u]
         | .error _ => []) ++
        queueTrace env ts

/-- A track-search response holding a single hit with the given uri (the
shape returned by the Spotify `searchV2` endpoint and used in the repo's
test fixtures). -/
def trackHitW (uri : String) : Json :=
  .obj [("data", .obj [("searchV2", .obj [("tracksV2", .obj [("items",
    .arr [.obj [("item", .obj [("data", .obj [("uri", .str uri)])])]])])])])]

/-- An artist-search response holding a single hit with the given display
name and uri. -/
def artistHitW (name uri : String) : Json :=
  .obj [("data", .obj [("searchV2", .obj [("artists", .obj [("items",
    .arr [.obj [("data", .obj [("profile", .obj [("name", .str name)]),
                               ("uri", .str uri)])]])])])])]

/-- A concrete collaborator oracle mirroring the repository's test fixtures
(one device `Den`, track searches hitting `spotify:track:found123`, artist
searches hitting `Deafheaven`). -/
def envW : Env where
  querySongs := fun _ _ _ => trackHitW "spotify:track:found123"
  queryArtists := fun _ _ _ => artistHitW "Deafheaven" "spotify:artist:4O15Nl"
  getArtist := fun i => .obj [("artist", .str i)]
  getTrackInfo := fun _ => .null
  getAlbumInfo := fun _ _ _ => .null
  getPlaylistInfo := fun _ _ _ => .null
  getLibrary := fun _ _ _ => .null
  recommendedSongs := fun _ _ => .null
  createPlaylistId := fun _ => "newpl"
  devices := [("dev0", { device_id := "dev0", name := "Den", volume := 32768 })]
  activeId := some "dev0"
  currentDeviceId := "dev0"
  playerState := .null
  queueItems := []
  historyItems := []

/-- A variant of `envW` whose track searches come back empty. -/
def envEmptyW : Env := { envW with
  querySongs := fun _ _ _ =>
    .obj [("data", .obj [("searchV2", .obj [("tracksV2", .obj [("items", .arr [])])])])] }

/-- A variant of `envW` whose track searches succeed for `Karma Police` but
come back empty for any other name. -/
def envFailW : Env := { envW with
  querySongs := fun name _ _ =>
    if name == "Karma Police" then trackHitW "spotify:track:found123"
    else .obj [("data", .obj [("searchV2", .obj [("tracksV2", .obj [("items", .arr [])])])])] }

/-- Attempt behavior for the retry witness: the first dispatch fails with a
`DSLError` caused by a `WebSocketError`, the second succeeds. -/
def attWsThenOkW : Nat → Except XErr Nat := fun k =>
  if k == 1 then .error (.dslErr .ws) else .ok 7

/-- A player slot holding one live handle. -/
def slotW : PlayerSlot := { handle := some 0, nextGen := 1 }

/-! ## Computation lemmas for the writer/except monad -/

@[simp]
theorem M_bind_err (e : Err) (t : List Call) (f : α → M β) :
    ((⟨.error e, t⟩ : M α) >>= f) = ⟨.error e, t⟩ := rfl

@[simp]
theorem M_bind_ok (a : α) (t : List Call) (f : α → M β) :
    ((⟨.ok a, t⟩ : M α) >>= f) = ⟨(f a).res, t ++ (f a).calls⟩ := rfl

@[simp]
theorem M_pure_eq (a : α) : (pure a : M α) = ⟨.ok a, []⟩ := rfl

@[simp]
theorem M_pure_eq' (a : α) : (M.pure a : M α) = ⟨.ok a, []⟩ := rfl

@[simp]
theorem tell_eq (c : Call) : tell c = ⟨.ok (), [c]⟩ := rfl

@[simp]
theorem throwE_eq (e : Err) : (throwE e : M α) = ⟨.error e, []⟩ := rfl

@[simp]
theorem getReq_some (a : α) : getReq (some a) = ⟨.ok a, []⟩ := rfl

@[simp]
theorem getReq_none : (getReq (none : Option α)) = ⟨.error (.wrapped "KeyError"), []⟩ := rfl

@[simp]
theorem whenSome_none (f : α → M Unit) : whenSome none f = ⟨.ok (), []⟩ := rfl

@[simp]
theorem whenSome_some (a : α) (f : α → M Unit) : whenSome (some a) f = f a := rfl

/-- Eta for computations. -/
@[simp]
theorem M_eta (x : M α) : (⟨x.res, x.calls⟩ : M α) = x := rfl

/-- Bind in terms of the scrutinized outcome of the first computation. -/
theorem M_bind_eta (x : M α) (f : α → M β) :
    x >>= f = (match x.res with
      | .error e => ⟨.error e, x.calls⟩
      | .ok a => ⟨(f a).res, x.calls ++ (f a).calls⟩) := by
  cases x with
  | mk r t => cases r <;> rfl

/-- `pyIndex0` never makes collaborator calls. -/
theorem pyIndex0_calls (j : Json) : (pyIndex0 j).calls = [] := by
  cases j with
  | arr xs => cases xs <;> rfl
  | str s =>
      simp only [pyIndex0]
      split <;> rfl
  | null => rfl
  | bool b => rfl
  | num q => rfl
  | obj kvs => rfl

/-- Resolution makes either no call (bare id) or the single kind-directed
search call. -/
theorem resolve_target_calls (env : Env) (kind t : String) :
    (resolve_target env kind t).calls = [] ∨
    (resolve_target env kind t).calls = [searchCallOf kind t] := by
  unfold resolve_target
  split
  · left; rfl
  · right
    unfold search_and_resolve searchCallOf
    by_cases hk : (kind == "artist") = true
    · simp only [hk, reduceIte]
      by_cases hti : ((deep_get (env.queryArtists t 1 0)
          ["data", "searchV2", "artists", "items"]).getD (.arr [])).truthy
      · cases hres0 : (pyIndex0 ((deep_get (env.queryArtists t 1 0)
            ["data", "searchV2", "artists", "items"]).getD (.arr []))).res <;>
          simp [M_bind_eta, hres0, pyIndex0_calls, hti] <;>
          split <;> simp
      · simp [M_bind_eta, hti]
    · simp only [hk, Bool.false_eq_true, reduceIte]
      cases hsec : extract_search_section (env.querySongs t 1 0) kind with
      | arr xs =>
          cases xs with
          | nil => simp [M_bind_eta, hsec]
          | cons x rest =>
              simp [M_bind_eta, hsec]
              split <;> (try split) <;> simp
      | null => simp [M_bind_eta, hsec]
      | bool b => simp [M_bind_eta, hsec]
      | num q => simp [M_bind_eta, hsec]
      | str s => simp [M_bind_eta, hsec]
      | obj kvs => simp [M_bind_eta, hsec]

/-- Calls of a resolution survive no filter that drops search calls. -/
theorem resolve_calls_filter (env : Env) (kind t : String) (p : Call → Bool)
    (hp : p (searchCallOf kind t) = false) :
    ((resolve_target env kind t).calls).filter p = [] := by
  rcases resolve_target_calls env kind t with h | h <;> rw [h] <;> simp [hp]

theorem isSetVolumeCall_searchCallOf (kind t : String) :
    isSetVolumeCall (searchCallOf kind t) = false := by
  unfold searchCallOf
  split <;> rfl

theorem isGetArtistCall_searchCallOf (kind t : String) :
    isGetArtistCall (searchCallOf kind t) = false := by
  unfold searchCallOf
  split <;> rfl

/-- Specialization: resolution traces carry no `setVolume` write. -/
theorem resolve_setvol_filter (env : Env) (kind t : String) :
    ((resolve_target env kind t).calls).filter isSetVolumeCall = [] :=
  resolve_calls_filter env kind t isSetVolumeCall (isSetVolumeCall_searchCallOf kind t)

/-- Specialization: resolution traces carry no artist-info fetch. -/
theorem resolve_getartist_filter (env : Env) (kind t : String) :
    ((resolve_target env kind t).calls).filter isGetArtistCall = [] :=
  resolve_calls_filter env kind t isGetArtistCall (isGetArtistCall_searchCallOf kind t)

theorem tellN_eq (c : Call) (n : Nat) : tellN c n = ⟨.ok (), List.replicate n c⟩ := by
  induction n with
  | zero => rfl
  | succ k ih =>
      show M.bind (tell c) (fun _ => tellN c k) = _
      rw [ih]
      simp [M.bind, tell, List.replicate_succ]

theorem extract_id_calls (j : Json) (kind : String) : (extract_id j kind).calls = [] := by
  cases j <;> rfl

/-- `_action_play` never writes volume. -/
theorem action_play_setvol_free (env : Env) (cmd : Cmd) :
    ((action_play env cmd).calls).filter isSetVolumeCall = [] := by
  unfold action_play
  cases cmd.kind with
  | none => rfl
  | some kind =>
    cases cmd.target with
    | none => rfl
    | some target =>
      simp only [getReq_some, M_bind_ok, M_bind_eta]
      repeat' split
      all_goals try simp only [List.filter_append, resolve_setvol_filter, tell_eq, M_pure_eq']
      all_goals simp [isSetVolumeCall]

/-- `_action_skip` never writes volume. -/
theorem action_skip_setvol_free (cmd : Cmd) :
    ((action_skip cmd).calls).filter isSetVolumeCall = [] := by
  unfold action_skip
  simp only [tellN_eq, M_bind_ok, M_bind_eta, M_pure_eq']
  split <;> simp [isSetVolumeCall, List.filter_replicate]

/-- `_action_seek` never writes volume. -/
theorem action_seek_setvol_free (cmd : Cmd) :
    ((action_seek cmd).calls).filter isSetVolumeCall = [] := by
  unfold action_seek
  cases cmd.position_s <;> simp [isSetVolumeCall]

theorem queue_loop_setvol_free (env : Env) (kind : String) (ts : List String) :
    ((queue_loop env kind ts).calls).filter isSetVolumeCall = [] := by
  induction ts with
  | nil => rfl
  | cons t rest ih =>
      unfold queue_loop
      simp only [M_bind_eta]
      repeat' split
      all_goals try simp only [List.filter_append, resolve_setvol_filter, tell_eq, M_pure_eq', ih]
      all_goals simp [isSetVolumeCall]

/-- `_action_queue` never writes volume. -/
theorem action_queue_setvol_free (env : Env) (cmd : Cmd) :
    ((action_queue env cmd).calls).filter isSetVolumeCall = [] := by
  unfold action_queue
  cases cmd.kind with
  | none => rfl
  | some kind =>
    simp only [getReq_some, M_bind_ok, M_bind_eta]
    repeat' split
    all_goals cases cmd.targets
    all_goals try simp only [getReq_none, getReq_some, M_bind_eta, List.filter_append,
      queue_loop_setvol_free, M_pure_eq']
    all_goals simp [isSetVolumeCall, queue_loop_setvol_free]

theorem lib_add_step_setvol_free (env : Env) (cmd : Cmd) (kind t : String) :
    ((lib_add_step env cmd kind t).calls).filter isSetVolumeCall = [] := by
  unfold lib_add_step
  simp only [M_bind_eta]
  repeat' split
  all_goals try simp only [List.filter_append, resolve_setvol_filter, extract_id_calls,
    tell_eq, M_pure_eq', throwE_eq]
  all_goals simp [isSetVolumeCall]

theorem lib_remove_step_setvol_free (env : Env) (cmd : Cmd) (kind t : String) :
    ((lib_remove_step env cmd kind t).calls).filter isSetVolumeCall = [] := by
  unfold lib_remove_step
  simp only [M_bind_eta]
  repeat' split
  all_goals try simp only [List.filter_append, resolve_setvol_filter, extract_id_calls,
    tell_eq, M_pure_eq', throwE_eq]
  all_goals simp [isSetVolumeCall]

theorem lib_loop_setvol_free (step : String → M Unit) (ts : List String)
    (hstep : ∀ t, ((step t).calls).filter isSetVolumeCall = []) :
    ((lib_loop step ts).calls).filter isSetVolumeCall = [] := by
  induction ts with
  | nil => rfl
  | cons t rest ih =>
      unfold lib_loop
      simp only [M_bind_eta]
      repeat' split
      all_goals simp [List.filter_append, hstep, ih]

/-- `_action_library_add` never writes volume. -/
theorem action_library_add_setvol_free (env : Env) (cmd : Cmd) :
    ((action_library_add env cmd).calls).filter isSetVolumeCall = [] := by
  unfold action_library_add
  cases cmd.kind with
  | none => rfl
  | some kind =>
    cases cmd.targets with
    | none => rfl
    | some ts =>
      simp only [getReq_some, M_bind_ok, M_bind_eta]
      repeat' split
      all_goals simp [List.filter_append,
        lib_loop_setvol_free _ _ (lib_add_step_setvol_free env cmd kind), isSetVolumeCall]

/-- `_action_library_remove` never writes volume. -/
theorem action_library_remove_setvol_free (env : Env) (cmd : Cmd) :
    ((action_library_remove env cmd).calls).filter isSetVolumeCall = [] := by
  unfold action_library_remove
  cases cmd.kind with
  | none => rfl
  | some kind =>
    cases cmd.targets with
    | none => rfl
    | some ts =>
      simp only [getReq_some, M_bind_ok, M_bind_eta]
      repeat' split
      all_goals simp [List.filter_append,
        lib_loop_setvol_free _ _ (lib_remove_step_setvol_free env cmd kind), isSetVolumeCall]

/-- `_action_library_create` never writes volume. -/
theorem action_library_create_setvol_free (env : Env) (cmd : Cmd) :
    ((action_library_create env cmd).calls).filter isSetVolumeCall = [] := by
  unfold action_library_create
  cases cmd.target <;> rfl

/-- `_action_library_delete` never writes volume. -/
theorem action_library_delete_setvol_free (env : Env) (cmd : Cmd) :
    ((action_library_delete env cmd).calls).filter isSetVolumeCall = [] := by
  unfold action_library_delete
  cases cmd.target with
  | none => rfl
  | some t =>
    simp only [getReq_some, M_bind_ok, M_bind_eta]
    repeat' split
    all_goals try simp only [List.filter_append, resolve_setvol_filter, extract_id_calls,
      tell_eq, M_pure_eq', throwE_eq]
    all_goals simp [isSetVolumeCall]

/-- `_action_play` results never echo a volume. -/
theorem action_play_volume_none (env : Env) (cmd : Cmd) (r : Res)
    (h : (action_play env cmd).res = .ok r) : r.volume = none := by
  unfold action_play at h
  simp only [M_bind_eta, getReq] at h
  repeat' split at h
  all_goals try simp only [M_pure_eq', throwE_eq, tell_eq, M_bind_ok, M_bind_err,
    Except.ok.injEq] at h
  all_goals try subst_eqs
  all_goals simp_all

/-- `_action_skip` results never echo a volume. -/
theorem action_skip_volume_none (cmd : Cmd) (r : Res)
    (h : (action_skip cmd).res = .ok r) : r.volume = none := by
  unfold action_skip at h
  simp only [M_bind_eta, tellN_eq] at h
  repeat' split at h
  all_goals try simp only [M_pure_eq', throwE_eq, tell_eq, M_bind_ok, M_bind_err,
    Except.ok.injEq] at h
  all_goals try subst_eqs
  all_goals simp_all

/-- `_action_seek` results never echo a volume. -/
theorem action_seek_volume_none (cmd : Cmd) (r : Res)
    (h : (action_seek cmd).res = .ok r) : r.volume = none := by
  unfold action_seek at h
  simp only [M_bind_eta, getReq] at h
  repeat' split at h
  all_goals try simp only [M_pure_eq', throwE_eq, tell_eq, M_bind_ok, M_bind_err,
    Except.ok.injEq] at h
  all_goals try subst_eqs
  all_goals simp_all

/-- `_action_queue` results never echo a volume. -/
theorem action_queue_volume_none (env : Env) (cmd : Cmd) (r : Res)
    (h : (action_queue env cmd).res = .ok r) : r.volume = none := by
  unfold action_queue at h
  simp only [M_bind_eta, getReq] at h
  repeat' split at h
  all_goals try simp only [M_pure_eq', throwE_eq, tell_eq, M_bind_ok, M_bind_err,
    Except.ok.injEq] at h
  all_goals try subst_eqs
  all_goals simp_all

/-- `_action_library_add` results never echo a volume. -/
theorem action_library_add_volume_none (env : Env) (cmd : Cmd) (r : Res)
    (h : (action_library_add env cmd).res = .ok r) : r.volume = none := by
  unfold action_library_add at h
  simp only [M_bind_eta, getReq] at h
  repeat' split at h
  all_goals try simp only [M_pure_eq', throwE_eq, tell_eq, M_bind_ok, M_bind_err,
    Except.ok.injEq] at h
  all_goals try subst_eqs
  all_goals simp_all

/-- `_action_library_remove` results never echo a volume. -/
theorem action_library_remove_volume_none (env : Env) (cmd : Cmd) (r : Res)
    (h : (action_library_remove env cmd).res = .ok r) : r.volume = none := by
  unfold action_library_remove at h
  simp only [M_bind_eta, getReq] at h
  repeat' split at h
  all_goals try simp only [M_pure_eq', throwE_eq, tell_eq, M_bind_ok, M_bind_err,
    Except.ok.injEq] at h
  all_goals try subst_eqs
  all_goals simp_all

/-- `_action_library_create` results never echo a volume. -/
theorem action_library_create_volume_none (env : Env) (cmd : Cmd) (r : Res)
    (h : (action_library_create env cmd).res = .ok r) : r.volume = none := by
  unfold action_library_create at h
  simp only [M_bind_eta, getReq] at h
  repeat' split at h
  all_goals try simp only [M_pure_eq', throwE_eq, tell_eq, M_bind_ok, M_bind_err,
    Except.ok.injEq] at h
  all_goals try subst_eqs
  all_goals simp_all

/-- `_action_library_delete` results never echo a volume. -/
theorem action_library_delete_volume_none (env : Env) (cmd : Cmd) (r : Res)
    (h : (action_library_delete env cmd).res = .ok r) : r.volume = none := by
  unfold action_library_delete at h
  simp only [M_bind_eta, getReq] at h
  repeat' split at h
  all_goals try simp only [M_pure_eq', throwE_eq, tell_eq, M_bind_ok, M_bind_err,
    Except.ok.injEq] at h
  all_goals try subst_eqs
  all_goals simp_all

/-- `_query_search` results never echo a volume. -/
theorem query_search_volume_none (env : Env) (cmd : Cmd) (r : Res)
    (h : (query_search env cmd).res = .ok r) : r.volume = none := by
  unfold query_search at h
  simp only [M_bind_eta, getReq] at h
  repeat' split at h
  all_goals try simp only [M_pure_eq', throwE_eq, tell_eq, M_bind_ok, M_bind_err,
    Except.ok.injEq] at h
  all_goals try subst_eqs
  all_goals simp_all

/-- `_query_status` results never echo a volume. -/
theorem query_status_volume_none (env : Env) (cmd : Cmd) (r : Res)
    (h : (query_status env cmd).res = .ok r) : r.volume = none := by
  unfold query_status at h
  simp only [M_bind_eta] at h
  repeat' split at h
  all_goals try simp only [M_pure_eq', throwE_eq, tell_eq, M_bind_ok, M_bind_err,
    Except.ok.injEq] at h
  all_goals try subst_eqs
  all_goals simp_all

/-- `_query_info` results never echo a volume. -/
theorem query_info_volume_none (env : Env) (cmd : Cmd) (r : Res)
    (h : (query_info env cmd).res = .ok r) : r.volume = none := by
  unfold query_info at h
  simp only [M_bind_eta, getReq] at h
  repeat' split at h
  all_goals try simp only [M_pure_eq', throwE_eq, tell_eq, M_bind_ok, M_bind_err,
    Except.ok.injEq] at h
  all_goals try subst_eqs
  all_goals simp_all

/-- `_query_library_list` results never echo a volume. -/
theorem query_library_list_volume_none (env : Env) (cmd : Cmd) (r : Res)
    (h : (query_library_list env cmd).res = .ok r) : r.volume = none := by
  unfold query_library_list at h
  simp only [M_bind_eta, getReq] at h
  repeat' split at h
  all_goals try simp only [M_pure_eq', throwE_eq, tell_eq, M_bind_ok, M_bind_err,
    Except.ok.injEq] at h
  all_goals try subst_eqs
  all_goals simp_all

/-- `_query_recommend` results never echo a volume. -/
theorem query_recommend_volume_none (env : Env) (cmd : Cmd) (r : Res)
    (h : (query_recommend env cmd).res = .ok r) : r.volume = none := by
  unfold query_recommend at h
  simp only [M_bind_eta, getReq] at h
  repeat' split at h
  all_goals try simp only [M_pure_eq', throwE_eq, tell_eq, M_bind_ok, M_bind_err,
    Except.ok.injEq] at h
  all_goals try subst_eqs
  all_goals simp_all

/-- `_dispatch_query` results never echo a volume. -/
theorem dispatch_query_volume_none (env : Env) (cmd : Cmd) (r : Res)
    (h : (dispatch_query env cmd).res = .ok r) : r.volume = none := by
  unfold dispatch_query at h
  simp only [M_bind_eta, getReq] at h
  repeat' split at h
  all_goals first
    | exact query_search_volume_none _ _ _ h
    | exact query_status_volume_none _ _ _ h
    | exact query_info_volume_none _ _ _ h
    | exact query_library_list_volume_none _ _ _ h
    | exact query_recommend_volume_none _ _ _ h
    | simp_all

set_option maxHeartbeats 1000000 in
/-- The chosen handler either echoes the command's own volume (the `set`
pass-through) or no volume at all. -/
theorem action_handler_volume (env : Env) (cmd : Cmd) (action : String) (r : Res)
    (h : (action_handler_result env cmd action).res = .ok r) :
    r.volume = cmd.volume ∨ r.volume = none := by
  unfold action_handler_result at h
  split at h
  · simp only [M_bind_eta, tell_eq, M_bind_ok, M_pure_eq', Except.ok.injEq] at h
    right; rw [← h]
  · split at h
    · simp only [M_bind_eta, tell_eq, M_bind_ok, M_pure_eq', Except.ok.injEq] at h
      right; rw [← h]
    · split at h
      · simp only [M_pure_eq', Except.ok.injEq] at h
        left; rw [← h]
      · split at h
        · exact Or.inr (action_play_volume_none _ _ _ h)
        · split at h
          · exact Or.inr (action_skip_volume_none _ _ h)
          · split at h
            · exact Or.inr (action_seek_volume_none _ _ h)
            · split at h
              · exact Or.inr (action_queue_volume_none _ _ _ h)
              · split at h
                · exact Or.inr (action_library_add_volume_none _ _ _ h)
                · split at h
                  · exact Or.inr (action_library_remove_volume_none _ _ _ h)
                  · split at h
                    · exact Or.inr (action_library_create_volume_none _ _ _ h)
                    · split at h
                      · exact Or.inr (action_library_delete_volume_none _ _ _ h)
                      · simp [throwE] at h

/-- Claim C7: every Result produced by `execute` that carries an echoed
`volume` field comes from a command specifying an absolute volume, and the
echoed value is exactly `min(requestedVolume, ceiling*100)` — in particular
it never exceeds `volumeCeiling * 100`. -/
theorem C7_volume_echo_clamped (env : Env) (ceiling : ℚ) (cmd : Cmd) (r : Res) (v : ℚ)
    (hok : (execute_once env ceiling cmd).res = .ok r) (hv : r.volume = some v) :
    ∃ req, cmd.volume = some req ∧ v = min req (ceiling * 100) ∧ v ≤ ceiling * 100 := by
  unfold execute_once at hok
  split at hok
  · unfold dispatch_action at hok
    simp only [M_bind_eta, getReq] at hok
    repeat' split at hok
    all_goals try simp only [M_pure_eq', Except.ok.injEq] at hok
    all_goals try subst_eqs
    all_goals try simp_all
    · rename_i hcond hact2
      obtain ⟨req, hreq⟩ := Option.isSome_iff_exists.mp hcond.1
      exact ⟨req, hreq, by simp [hreq]⟩
    · rename_i hhr hvnone
      rcases action_handler_volume env cmd _ r hhr with h1 | h1 <;> simp_all
  · split at hok
    · exact absurd (dispatch_query_volume_none env cmd r hok) (by simp [hv])
    · simp at hok

/-- Device resolution never writes volume. -/
theorem resolve_device_setvol_free (env : Env) (name : String) :
    ((resolve_device_id env name).calls).filter isSetVolumeCall = [] := by
  unfold resolve_device_id
  simp only [M_bind_eta, tell_eq]
  split <;> simp [isSetVolumeCall]

set_option maxHeartbeats 1000000 in
/-- No action handler writes volume (only the trailing modifiers do). -/
theorem action_handler_setvol_free (env : Env) (cmd : Cmd) (action : String) :
    ((action_handler_result env cmd action).calls).filter isSetVolumeCall = [] := by
  unfold action_handler_result
  split
  · simp [isSetVolumeCall]
  · split
    · simp [isSetVolumeCall]
    · split
      · simp
      · split
        · exact action_play_setvol_free env cmd
        · split
          · exact action_skip_setvol_free cmd
          · split
            · exact action_seek_setvol_free cmd
            · split
              · exact action_queue_setvol_free env cmd
              · split
                · exact action_library_add_setvol_free env cmd
                · split
                  · exact action_library_remove_setvol_free env cmd
                  · split
                    · exact action_library_create_setvol_free env cmd
                    · split
                      · exact action_library_delete_setvol_free env cmd
                      · simp

theorem C7_witness :
    ∃ req, (some (70:ℚ)) = some req ∧
      min (70:ℚ) (1 * 100) = min req (1 * 100) ∧ min (70:ℚ) (1 * 100) ≤ 1 * 100 :=
  C7_volume_echo_clamped envW 1 { action := some "set", volume := some 70 }
    { status := "ok", action := some "set", volume := some (min 70 (1 * 100)) }
    (min 70 (1 * 100)) rfl rfl

/-- Claim C2: for every kind and every target string matching
`^[A-Za-z0-9]{22}$`, `resolveTarget` returns exactly the URI
`spotify:{kind}:{target}` and performs no search-collaborator call (neither
`query_songs` nor `query_artists` is invoked — the trace is empty). -/
theorem C2_bare_id_passthrough (env : Env) (kind target : String)
    (h : bareIdChars target.data = true) :
    resolve_target env kind target
      = ⟨.ok (.str ("spotify:" ++ kind ++ ":" ++ target)), []⟩ := by
  unfold resolve_target
  have hb : is_bare_id target = true := by unfold is_bare_id; simp [h]
  simp [hb]

theorem C2_witness :
    bareIdChars (String.data "6rqhFgbbKwnb9MLmUQDhG6") = true ∧
    resolve_target envW "track" "6rqhFgbbKwnb9MLmUQDhG6"
      = ⟨.ok (.str ("spotify:" ++ "track" ++ ":" ++ "6rqhFgbbKwnb9MLmUQDhG6")), []⟩ :=
  ⟨rfl, C2_bare_id_passthrough envW "track" "6rqhFgbbKwnb9MLmUQDhG6" rfl⟩

/-- Claim C1: `execute` attempts the full dispatch once; if and only if that
attempt fails with a transient control-channel error (a `WebSocketError`,
possibly as the `__cause__` of the wrapping DSL error) does it tear down the
`playbackChannel` handle (a no-op when none exists) and retry the entire
dispatch exactly once, with the slot cleared so the next lazy access
constructs a fresh handle; a failure of the second attempt of any kind
propagates (non-DSL failures wrapped as DSL errors), and a non-transient
DSL error propagates immediately without any retry. -/
theorem C1_retry_policy (α : Type) (att : Nat → Except XErr α) (s : PlayerSlot) :
    (∀ e, transient e = true ↔ (e = .wsErr ∨ e = .dslErr .ws)) ∧
    (∀ r, att 1 = .ok r →
        execute_retry att s = ⟨.ok r, s, [.attempt 1]⟩) ∧
    (∀ e, att 1 = .error e → transient e = false →
        execute_retry att s = ⟨.error e, s, [.attempt 1]⟩) ∧
    (∀ e, att 1 = .error e → transient e = true →
        execute_retry att s =
          ⟨(match att 2 with
            | .ok r => .ok r
            | .error e2 => .error (wrap_second e2)),
           (reset_player s).1,
           [.attempt 1] ++ (reset_player s).2 ++ [.attempt 2]⟩) ∧
    ((reset_player s).1.handle = none) ∧
    (∀ n, reset_player ⟨none, n⟩ = (⟨none, n⟩, [])) ∧
    (∀ n, getPlayer ⟨none, n⟩ = (n, ⟨some n, n + 1⟩)) := by
  refine ⟨?_, ?_, ?_, ?_, ?_, fun n => rfl, fun n => rfl⟩
  · intro e
    cases e with
    | dslErr c => cases c <;> simp [transient]
    | wsErr => simp [transient]
    | otherErr => simp [transient]
  · intro r h
    unfold execute_retry
    rw [h]
  · intro e h ht
    unfold execute_retry
    rw [h]
    simp [ht]
  · intro e h ht
    unfold execute_retry
    rw [h]
    simp [ht]
    cases att 2 <;> rfl
  · cases hs : s.handle <;> simp [reset_player, hs]

theorem C1_witness :
    transient (.dslErr .ws) = true ∧
    attWsThenOkW 1 = .error (.dslErr .ws) ∧
    execute_retry attWsThenOkW slotW
      = ⟨.ok 7, { handle := none, nextGen := 1 }, [.attempt 1, .wsClose, .attempt 2]⟩ := by
  refine ⟨rfl, rfl, ?_⟩
  have h := (C1_retry_policy Nat attWsThenOkW slotW).2.2.2.1 (.dslErr .ws) rfl rfl
  rw [h]
  rfl

/-- Claim C3: for every target string that does not match the bare-id
pattern, `resolveTarget` issues exactly one search call (the artist
collaborator for `kind=artist`, else the song collaborator) with `limit=1`,
and returns the uri of item 0 of the kind-specific result section — for
`track` the uri is read one nesting level deeper (`item.data.uri`) than for
`album`/`playlist` (`data.uri`); an empty or non-list section and a
missing/falsy item-0 uri fail with the `No results` DSL error (for
`kind=artist` this is stated for list-shaped items values, the shape the
collaborator returns). -/
theorem C3_search_resolution (env : Env) (kind target : String)
    (hbare : is_bare_id target = false) :
    (resolve_target env kind target).calls = [searchCallOf kind target] ∧
    (kind ≠ "artist" →
      (resolve_target env kind target).res =
        (match extract_search_section (env.querySongs target 1 0) kind with
         | .arr (x :: _) =>
            (if ((deep_get x (uriPathOf kind)).getD .null).truthy
             then .ok ((deep_get x (uriPathOf kind)).getD .null)
             else .error (.noResults target))
         | _ => .error (.noResults target))) ∧
    (kind = "artist" →
      ∀ l, (deep_get (env.queryArtists target 1 0)
              ["data", "searchV2", "artists", "items"]).getD (.arr []) = .arr l →
        (resolve_target env kind target).res =
          (match l with
           | [] => .error (.noResults target)
           | x :: _ =>
              (if ((deep_get x ["data", "uri"]).getD .null).truthy
               then .ok ((deep_get x ["data", "uri"]).getD .null)
               else .error (.noResults target)))) := by
  have hres : resolve_target env kind target = search_and_resolve env kind target := by
    simp [resolve_target, hbare]
  rw [hres]
  unfold search_and_resolve
  by_cases hk : kind = "artist"
  · subst hk
    simp only [searchCallOf, beq_self_eq_true, if_true, reduceIte]
    refine ⟨?_, fun h => absurd rfl h, fun _ l hl => ?_⟩
    · by_cases hti : ((deep_get (env.queryArtists target 1 0)
          ["data", "searchV2", "artists", "items"]).getD (.arr [])).truthy
      · cases hres0 : (pyIndex0 ((deep_get (env.queryArtists target 1 0)
            ["data", "searchV2", "artists", "items"]).getD (.arr []))).res <;>
          simp [M_bind_eta, hres0, pyIndex0_calls, hti] <;>
          split <;> simp
      · simp [M_bind_eta, hti]
    · rw [hl]
      cases l with
      | nil => simp [M_bind_eta, Json.truthy]
      | cons x xs =>
          simp [M_bind_eta, Json.truthy, pyIndex0, optTruthy]
          split <;> simp_all
  · have hkb : (kind == "artist") = false := by simp [hk]
    simp only [searchCallOf, hkb, Bool.false_eq_true, reduceIte]
    refine ⟨?_, fun _ => ?_, fun h => absurd h hk⟩
    · cases hsec : extract_search_section (env.querySongs target 1 0) kind with
      | arr xs =>
          cases xs with
          | nil => simp [M_bind_eta, hsec]
          | cons x rest =>
              simp [M_bind_eta, hsec]
              split <;> (try split) <;> simp
      | null => simp [M_bind_eta, hsec]
      | bool b => simp [M_bind_eta, hsec]
      | num q => simp [M_bind_eta, hsec]
      | str s => simp [M_bind_eta, hsec]
      | obj kvs => simp [M_bind_eta, hsec]
    · cases hsec : extract_search_section (env.querySongs target 1 0) kind with
      | arr xs =>
          cases xs with
          | nil => simp [M_bind_eta, hsec]
          | cons x rest =>
              by_cases hkt : (kind == "track") = true
              · simp [M_bind_eta, hsec, hkt, uriPathOf, optTruthy]
                split <;> simp_all
              · simp [M_bind_eta, hsec, hkt, uriPathOf, optTruthy]
                split <;> simp_all
      | null => simp [M_bind_eta, hsec]
      | bool b => simp [M_bind_eta, hsec]
      | num q => simp [M_bind_eta, hsec]
      | str s => simp [M_bind_eta, hsec]
      | obj kvs => simp [M_bind_eta, hsec]

theorem C3_witness :
    is_bare_id "jazz" = false ∧
    (resolve_target envW "track" "jazz").calls = [searchCallOf "track" "jazz"] ∧
    (resolve_target envW "track" "jazz").res = .ok (.str "spotify:track:found123") ∧
    (resolve_target envW "artist" "deaf").res = .ok (.str "spotify:artist:4O15Nl") := by
  refine ⟨rfl, (C3_search_resolution envW "track" "jazz" rfl).1, ?_, ?_⟩
  · exact ((C3_search_resolution envW "track" "jazz" rfl).2.1 (by decide)).trans rfl
  · exact ((C3_search_resolution envW "artist" "deaf" rfl).2.2 rfl
      [.obj [("data", .obj [("profile", .obj [("name", .str "Deafheaven")]),
                            ("uri", .str "spotify:artist:4O15Nl")])]] rfl).trans rfl

/-- Claim C4 counterexample: a successful `play` of a BareId target DOES
carry `resolved_uri` (the passthrough uri `spotify:track:<id>` differs from
the literal 22-character target, so the `uri != target` check fires). -/
theorem C4_counterexample :
    (execute_once envW 1 { action := some "play", kind := some "track", target := some "6rqhFgbbKwnb9MLmUQDhG6" }).res
      = .ok { status := "ok", action := some "play", kind := some "track",
              target := some "6rqhFgbbKwnb9MLmUQDhG6",
              resolved_uri := some (.str "spotify:track:6rqhFgbbKwnb9MLmUQDhG6") } := rfl

/-- Claim C4 (amended): a successful `play` Result contains `resolved_uri`
if and only if the resolved uri differs from the literal target string; a
BareId passthrough also carries it, since `spotify:{kind}:{id}` is strictly
longer than the bare id and thus never equal to it. -/
theorem C4_resolved_uri (env : Env) (cmd : Cmd) (kind target : String) (uri : Json)
    (rtr : List Call) (r : Res) (tr : List Call)
    (hk : cmd.kind = some kind) (ht : cmd.target = some target)
    (hres : resolve_target env kind target = ⟨.ok uri, rtr⟩)
    (hok : action_play env cmd = ⟨.ok r, tr⟩) :
    r.resolved_uri = (if jsonEqStr uri target then none else some uri) ∧
    (is_bare_id target = true → r.resolved_uri = some uri) := by
  have h1 : r.resolved_uri = (if jsonEqStr uri target then none else some uri) := by
    unfold action_play at hok
    simp only [hk, ht, getReq_some, M_bind_ok, hres] at hok
    rw [M.mk.injEq] at hok
    obtain ⟨hokr, -⟩ := hok
    split at hokr
    · rw [M_bind_eta] at hokr
      cases hrc : (resolve_target env (cmd.context_kind.getD "None") (cmd.context.getD "")).res with
      | error e => rw [hrc] at hokr; simp at hokr
      | ok cu =>
          rw [hrc] at hokr
          simp only [tell_eq, M_bind_ok, M_pure_eq'] at hokr
          split at hokr
          case isTrue hcond =>
            simp only [M_pure_eq', Except.ok.injEq] at hokr
            rw [← hokr]
            simp only [Bool.not_eq_eq_eq_not, Bool.not_true] at hcond
            simp [hcond]
          case isFalse hcond =>
            simp only [M_pure_eq', Except.ok.injEq] at hokr
            rw [← hokr]
            simp only [Bool.not_eq_eq_eq_not, Bool.not_true, Bool.not_eq_false] at hcond
            simp [hcond]
    · simp only [tell_eq, M_bind_ok, M_pure_eq'] at hokr
      split at hokr
      case isTrue hcond =>
        simp only [M_pure_eq', Except.ok.injEq] at hokr
        rw [← hokr]
        simp only [Bool.not_eq_eq_eq_not, Bool.not_true] at hcond
        simp [hcond]
      case isFalse hcond =>
        simp only [M_pure_eq', Except.ok.injEq] at hokr
        rw [← hokr]
        simp only [Bool.not_eq_eq_eq_not, Bool.not_true, Bool.not_eq_false] at hcond
        simp [hcond]
  refine ⟨h1, fun hbare => ?_⟩
  have huri : uri = .str ("spotify:" ++ kind ++ ":" ++ target) := by
    unfold resolve_target at hres
    rw [hbare] at hres
    simp only [if_true, M_pure_eq', M.mk.injEq, Except.ok.injEq] at hres
    exact hres.1.symm
  have hne : ("spotify:" ++ kind ++ ":" ++ target) ≠ target := by
    intro heq
    have hlen := congrArg String.length heq
    have h8 : String.length "spotify:" = 8 := rfl
    have hc : String.length ":" = 1 := rfl
    simp only [String.length_append, h8, hc] at hlen
    omega
  have hjs : jsonEqStr uri target = false := by
    rw [huri]
    simp [jsonEqStr, hne]
  rw [h1, hjs]
  simp

theorem C4_witness :
    ({ status := "ok", action := some "play", kind := some "track",
       target := some "6rqhFgbbKwnb9MLmUQDhG6",
       resolved_uri := some (.str "spotify:track:6rqhFgbbKwnb9MLmUQDhG6") } : Res).resolved_uri
      = some (.str "spotify:track:6rqhFgbbKwnb9MLmUQDhG6") := by
  exact (C4_resolved_uri envW
    { action := some "play", kind := some "track", target := some "6rqhFgbbKwnb9MLmUQDhG6" }
    "track" "6rqhFgbbKwnb9MLmUQDhG6" (.str "spotify:track:6rqhFgbbKwnb9MLmUQDhG6") []
    _ _ rfl rfl rfl rfl).2 rfl

/-- Claim C5 counterexample: a mapping carrying BOTH the `action` and `query`
tags is not rejected: it is dispatched as an action and succeeds. -/
theorem C5_counterexample :
    execute_once envW 1 { action := some "pause", query := some "status" }
      = ⟨.ok { status := "ok", action := some "pause" }, [.pause]⟩ := rfl

/-- Claim C5 (amended): a mapping with neither tag raises the
MalformedCommand error (`Invalid command: no action or query key`); a
mapping carrying the `action` tag — even together with a `query` tag — is
dispatched as an action (the action tag takes precedence, no error); a
mapping with only the `query` tag is dispatched as a query. -/
theorem C5_tag_dispatch (env : Env) (ceiling : ℚ) (cmd : Cmd) :
    (cmd.action = none → cmd.query = none →
        execute_once env ceiling cmd = ⟨.error .invalidCommand, []⟩) ∧
    (cmd.action.isSome = true →
        execute_once env ceiling cmd = dispatch_action env ceiling cmd) ∧
    (cmd.action = none → cmd.query.isSome = true →
        execute_once env ceiling cmd = dispatch_query env cmd) := by
  unfold execute_once
  refine ⟨?_, ?_, ?_⟩
  · intro h1 h2
    simp [h1, h2, throwE]
  · intro h1
    simp [h1]
  · intro h1 h2
    simp [h1, h2]

theorem C5_witness :
    execute_once envW 1 {} = ⟨.error .invalidCommand, []⟩ ∧
    execute_once envW 1 { action := some "pause", query := some "status" }
      = dispatch_action envW 1 { action := some "pause", query := some "status" } ∧
    execute_once envW 1 { query := some "status" }
      = dispatch_query envW { query := some "status" } :=
  ⟨(C5_tag_dispatch envW 1 {}).1 rfl rfl,
   (C5_tag_dispatch envW 1 _).2.1 rfl,
   (C5_tag_dispatch envW 1 _).2.2 rfl rfl⟩

/-- With the `action` tag present, `_dispatch_action` is the handler step
followed by the modifiers and the volume-echo clamp. -/
theorem dispatch_action_some (env : Env) (ceiling : ℚ) (cmd : Cmd) (a : String)
    (hact : cmd.action = some a) :
    dispatch_action env ceiling cmd =
      ((action_handler_result env cmd a) >>= fun result =>
        (apply_state_modifiers env ceiling cmd) >>= fun _ =>
          if cmd.volume.isSome && result.volume.isSome then
            M.pure { result with volume := some (min (cmd.volume.getD 0) (ceiling * 100)) }
          else M.pure result) := by
  unfold dispatch_action
  rw [hact]
  show ((getReq (some a) : M String) >>= _) = _
  simp only [getReq_some, M_bind_ok, List.nil_append, M_eta]

/-- Claim C6 counterexample: an Action command carrying an absolute volume
modifier inside `[0,100]` together with a relative volume modifier performs
TWO `setVolume` channel writes, not exactly one. -/
theorem C6_counterexample :
    (((execute_once envW 1 { action := some "set", volume := some 50, volume_rel := some 10 }).calls).filter
        isSetVolumeCall).length = 2 := rfl

/-- Claim C6 (amended): for an Action command carrying an absolute volume
modifier `v` and session ceiling `c`: if `v` is outside `[0,100]`, the
modifier step raises `InvalidVolume` having written nothing, the dispatch
fails, and no `setVolume` write occurs anywhere in the dispatch; if `v` is
in range and the command carries no relative volume modifier (which would
add a second write of its own), the modifier step performs exactly one
`setVolume` write with value `min(v/100, c)`, and a successful dispatch's
whole trace contains exactly that one write. -/
theorem C6_absolute_volume (env : Env) (ceiling : ℚ) (cmd : Cmd) (v : ℚ)
    (hv : cmd.volume = some v) :
    ((v < 0 ∨ 100 < v) →
        apply_state_modifiers env ceiling cmd = ⟨.error (.invalidVolume v), []⟩ ∧
        (∃ e, (dispatch_action env ceiling cmd).res = .error e) ∧
        ((dispatch_action env ceiling cmd).calls).filter isSetVolumeCall = []) ∧
    (¬(v < 0 ∨ 100 < v) → cmd.volume_rel = none →
        ((apply_state_modifiers env ceiling cmd).calls).filter isSetVolumeCall
            = [.setVolume (min (v / 100) ceiling)] ∧
        (∀ r tr, dispatch_action env ceiling cmd = ⟨.ok r, tr⟩ →
            tr.filter isSetVolumeCall = [.setVolume (min (v / 100) ceiling)])) := by
  constructor
  · intro hout
    have hmod : apply_state_modifiers env ceiling cmd = ⟨.error (.invalidVolume v), []⟩ := by
      unfold apply_state_modifiers
      rw [hv]
      simp only [whenSome_some, M_bind_eta]
      rw [if_pos hout]
      simp
    refine ⟨hmod, ?_, ?_⟩
    · cases hact : cmd.action with
      | none =>
          unfold dispatch_action
          rw [hact]
          exact ⟨.wrapped "KeyError", rfl⟩
      | some a =>
          rw [dispatch_action_some env ceiling cmd a hact, M_bind_eta]
          cases hhr : (action_handler_result env cmd a).res with
          | error e => simp only [hhr]; exact ⟨e, rfl⟩
          | ok result =>
              simp only [hhr, hmod, M_bind_err]
              exact ⟨.invalidVolume v, rfl⟩
    · cases hact : cmd.action with
      | none =>
          unfold dispatch_action
          rw [hact]
          rfl
      | some a =>
          rw [dispatch_action_some env ceiling cmd a hact, M_bind_eta]
          cases hhr : (action_handler_result env cmd a).res with
          | error e =>
              simp only [hhr]
              exact action_handler_setvol_free env cmd a
          | ok result =>
              simp only [hhr, hmod, M_bind_err]
              simp [List.filter_append, action_handler_setvol_free env cmd a]
  · intro hin hrel
    have hB1 : ((apply_state_modifiers env ceiling cmd).calls).filter isSetVolumeCall
        = [.setVolume (min (v / 100) ceiling)] := by
      unfold apply_state_modifiers
      rw [hv, hrel]
      simp only [whenSome_some, whenSome_none, M_bind_eta, tell_eq, M_pure_eq']
      rw [if_neg hin]
      cases hmode : cmd.mode with
      | none =>
          cases hdev : cmd.device with
          | none => simp [isSetVolumeCall]
          | some dname =>
              simp only [whenSome_some, M_bind_eta]
              cases hrd : (resolve_device_id env dname).res <;>
                simp [isSetVolumeCall, List.filter_append, resolve_device_setvol_free]
      | some m =>
          cases hdev : cmd.device with
          | none => simp [isSetVolumeCall]
          | some dname =>
              simp only [whenSome_some, M_bind_eta]
              cases hrd : (resolve_device_id env dname).res <;>
                simp [isSetVolumeCall, List.filter_append, resolve_device_setvol_free]
    refine ⟨hB1, fun r tr hd => ?_⟩
    cases hact : cmd.action with
    | none =>
        unfold dispatch_action at hd
        rw [hact] at hd
        simp [getReq, throwE, M.bind, Bind.bind] at hd
    | some a =>
        rw [dispatch_action_some env ceiling cmd a hact, M_bind_eta] at hd
        cases hhr : (action_handler_result env cmd a).res with
        | error e => rw [hhr] at hd; simp at hd
        | ok result =>
            simp only [hhr] at hd
            rw [M_bind_eta] at hd
            cases hmo : (apply_state_modifiers env ceiling cmd).res with
            | error e => rw [hmo] at hd; simp at hd
            | ok u =>
                simp only [hmo] at hd
                rw [M.mk.injEq] at hd
                obtain ⟨-, htr⟩ := hd
                rw [← htr]
                split <;>
                  simp [List.filter_append, action_handler_setvol_free env cmd a, hB1,
                    isSetVolumeCall]

theorem C6_witness :
    ((150:ℚ) < 0 ∨ 100 < (150:ℚ)) ∧
    apply_state_modifiers envW 1 { action := some "set", volume := some 150 }
      = ⟨.error (.invalidVolume 150), []⟩ ∧
    ((apply_state_modifiers envW 1 { action := some "set", volume := some 70 }).calls).filter
        isSetVolumeCall = [.setVolume (min (70 / 100) 1)] := by
  refine ⟨by norm_num, ?_, ?_⟩
  · exact ((C6_absolute_volume envW 1 { action := some "set", volume := some 150 } 150 rfl).1
      (by norm_num)).1
  · exact ((C6_absolute_volume envW 1 { action := some "set", volume := some 70 } 70 rfl).2
      (by norm_num) rfl).1

/-- Claim C8: a `search artist` Query with exactly one term whose top-ranked
result's display name equals the term case-insensitively (and whose uri is
present) returns an info-style Result (full artist metadata fetched by id)
instead of the ranked-list search Result; with a non-matching top result,
more than one term, or an empty result list, the ordinary search Result is
returned; and the heuristic is never applied during target resolution (a
resolution never issues a `get_artist` fetch). -/
theorem C8_artist_auto_promotion (env : Env) (cmd : Cmd) (term : String)
    (hkind : cmd.kind = some "artist") :
    (∀ first rest nm u,
      cmd.terms = some [term] →
      pyPath (env.queryArtists term (cmd.limit.getD 10) (cmd.offset.getD 0))
          ["data", "searchV2", "artists", "items"] = .ok (.arr (first :: rest)) →
      (deep_get first ["data", "profile", "name"]).getD (.str "") = .str nm →
      pyLower nm = pyLower term →
      (deep_get first ["data", "uri"]).getD (.str "") = .str u →
      u ≠ "" →
      query_search env cmd =
        ⟨.ok { status := "ok", query := some "info", kind := some "artist",
               target := some nm,
               data := some (env.getArtist (extract_spotify_id u "artist")) },
         [.queryArtists term (cmd.limit.getD 10) (cmd.offset.getD 0),
          .getArtist (extract_spotify_id u "artist")]⟩) ∧
    (∀ first rest nm,
      cmd.terms = some [term] →
      pyPath (env.queryArtists term (cmd.limit.getD 10) (cmd.offset.getD 0))
          ["data", "searchV2", "artists", "items"] = .ok (.arr (first :: rest)) →
      (deep_get first ["data", "profile", "name"]).getD (.str "") = .str nm →
      pyLower nm ≠ pyLower term →
      (query_search env cmd).res =
        .ok { status := "ok", query := some "search", kind := some "artist",
              terms := some [term], data := some (.arr (first :: rest)) }) ∧
    (∀ ts all tr0,
      cmd.terms = some ts →
      search_terms_loop env "artist" (cmd.limit.getD 10) (cmd.offset.getD 0) ts
          = ⟨.ok all, tr0⟩ →
      (ts.length ≠ 1 ∨ all = []) →
      (query_search env cmd).res =
        .ok { status := "ok", query := some "search", kind := some "artist",
              terms := some ts, data := some (.arr all) }) ∧
    (∀ kind t, ((resolve_target env kind t).calls).filter isGetArtistCall = []) := by
  refine ⟨?_, ?_, ?_, fun kind t => resolve_getartist_filter env kind t⟩
  · intro first rest nm u hterms hpath hname hmatch huri hne
    unfold query_search
    rw [hterms, hkind]
    have hloop : search_terms_loop env "artist" (cmd.limit.getD 10) (cmd.offset.getD 0) [term]
        = ⟨.ok ((first :: rest) ++ []),
           [.queryArtists term (cmd.limit.getD 10) (cmd.offset.getD 0)]⟩ := by
      unfold search_terms_loop search_one_term search_terms_loop
      simp [hpath, pyExtendItems, M.bind, tell]
    simp only [getReq_some, M_bind_ok, List.nil_append, hloop]
    simp [hname, hmatch, huri, Json.truthy, hne, extract_id, M.bind]
  · intro first rest nm hterms hpath hname hne
    unfold query_search
    rw [hterms, hkind]
    have hloop : search_terms_loop env "artist" (cmd.limit.getD 10) (cmd.offset.getD 0) [term]
        = ⟨.ok ((first :: rest) ++ []),
           [.queryArtists term (cmd.limit.getD 10) (cmd.offset.getD 0)]⟩ := by
      unfold search_terms_loop search_one_term search_terms_loop
      simp [hpath, pyExtendItems, M.bind, tell]
    simp only [getReq_some, M_bind_ok, List.nil_append, hloop]
    simp [hname, hne, M.bind]
  · intro ts all tr0 hterms hloop hcase
    unfold query_search
    rw [hterms, hkind]
    simp only [getReq_some, M_bind_ok, List.nil_append, hloop]
    rcases hcase with hlen | hempty
    · simp [hlen, M.bind]
    · subst hempty
      simp [M.bind]

theorem C8_witness :
    query_search envW { query := some "search", kind := some "artist", terms := some ["Deafheaven"] }
      = ⟨.ok { status := "ok", query := some "info", kind := some "artist",
               target := some "Deafheaven", data := some (.obj [("artist", .str "4O15Nl")]) },
         [.queryArtists "Deafheaven" 10 0, .getArtist "4O15Nl"]⟩ :=
  (C8_artist_auto_promotion envW
      { query := some "search", kind := some "artist", terms := some ["Deafheaven"] }
      "Deafheaven" rfl).1
    (.obj [("data", .obj [("profile", .obj [("name", .str "Deafheaven")]),
                          ("uri", .str "spotify:artist:4O15Nl")])])
    [] "Deafheaven" "spotify:artist:4O15Nl" rfl rfl rfl rfl rfl (by decide)

theorem isAddToQueueCall_searchCallOf (kind t : String) :
    isAddToQueueCall (searchCallOf kind t) = false := by
  unfold searchCallOf
  split <;> rfl

/-- When every target resolves, the queue loop echoes the target list and
produces the per-target resolve+enqueue trace in order. -/
theorem queue_loop_spec (env : Env) (ts : List String)
    (hres : ∀ t ∈ ts, ∃ u rtr, resolve_target env "track" t = ⟨.ok u, rtr⟩) :
    queue_loop env "track" ts = ⟨.ok ts, queueTrace env ts⟩ := by
  induction ts with
  | nil => rfl
  | cons t rest ih =>
      obtain ⟨u, rtr, hu⟩ := hres t (List.mem_cons_self t rest)
      have ih' := ih (fun x hx => hres x (List.mem_cons_of_mem t hx))
      unfold queue_loop queueTrace
      rw [hu, ih']
      simp [M.bind, tell]

/-- The enqueues of a fully successful queue trace, one per target, in
order. -/
theorem queueTrace_filter (env : Env) (ts : List String)
    (hres : ∀ t ∈ ts, ∃ u rtr, resolve_target env "track" t = ⟨.ok u, rtr⟩) :
    (queueTrace env ts).filter isAddToQueueCall
      = ts.map (fun t => Call.addToQueue (resolvedUriD env "track" t)) := by
  induction ts with
  | nil => rfl
  | cons t rest ih =>
      obtain ⟨u, rtr, hu⟩ := hres t (List.mem_cons_self t rest)
      have hfu : (List.filter isAddToQueueCall rtr) = [] := by
        have hgen := resolve_calls_filter env "track" t isAddToQueueCall
          (isAddToQueueCall_searchCallOf "track" t)
        rw [hu] at hgen
        exact hgen
      unfold queueTrace
      rw [hu]
      simp [List.filter_append, hfu, isAddToQueueCall, resolvedUriD, hu,
        ih (fun x hx => hres x (List.mem_cons_of_mem t hx))]

/-- Claim C9: a queue Action with a non-track kind raises the
`UnsupportedQueueKind` DSL error before any resolution or enqueue (its
trace is empty); with `kind=track` and all targets resolving, each target
is resolved and enqueued via the channel in list order, with exactly one
enqueue call per target. -/
theorem C9_queue_tracks_only (env : Env) (cmd : Cmd) :
    (∀ kind, cmd.kind = some kind → kind ≠ "track" →
        action_queue env cmd = ⟨.error (.queueOnlyTracks kind), []⟩) ∧
    (cmd.kind = some "track" →
      ∀ ts, cmd.targets = some ts →
        (∀ t ∈ ts, ∃ u rtr, resolve_target env "track" t = ⟨.ok u, rtr⟩) →
        action_queue env cmd =
          ⟨.ok { status := "ok", action := some "queue", kind := some "track",
                 targets := some ts }, queueTrace env ts⟩ ∧
        (queueTrace env ts).filter isAddToQueueCall
          = ts.map (fun t => Call.addToQueue (resolvedUriD env "track" t))) := by
  constructor
  · intro kind hk hne
    unfold action_queue
    rw [hk]
    have hb : (kind != "track") = true := by simp [hne]
    simp [hb, M.bind, throwE, getReq]
    exact fun h => absurd h hne
  · intro hk ts hts hres
    refine ⟨?_, queueTrace_filter env ts hres⟩
    unfold action_queue
    rw [hk, hts]
    simp only [getReq_some, M_bind_ok, List.nil_append, bne_self_eq_false,
      Bool.false_eq_true, reduceIte]
    rw [queue_loop_spec env ts hres]
    simp [M.bind]

theorem C9_witness :
    action_queue envW { action := some "queue", kind := some "album", targets := some ["x"] }
      = ⟨.error (.queueOnlyTracks "album"), []⟩ ∧
    action_queue envW { action := some "queue", kind := some "track", targets := some ["jazz", "rock"] }
      = ⟨.ok { status := "ok", action := some "queue", kind := some "track",
                targets := some ["jazz", "rock"] },
         queueTrace envW ["jazz", "rock"]⟩ := by
  constructor
  · exact (C9_queue_tracks_only envW
      { action := some "queue", kind := some "album", targets := some ["x"] }).1
      "album" rfl (by decide)
  · exact ((C9_queue_tracks_only envW
      { action := some "queue", kind := some "track", targets := some ["jazz", "rock"] }).2
      rfl ["jazz", "rock"] rfl
      (by
        intro t ht
        rcases List.mem_cons.mp ht with rfl | ht2
        · exact ⟨.str "spotify:track:found123", [.querySongs "jazz" 1 0], rfl⟩
        rcases List.mem_cons.mp ht2 with rfl | ht3
        · exact ⟨.str "spotify:track:found123", [.querySongs "rock" 1 0], rfl⟩
        · cases ht3)).1

/-- A failing target aborts the library loop: the calls of the earlier,
already-processed targets remain, the failure's own calls end the trace,
and nothing follows (no rollback). -/
theorem lib_loop_fail (step : String → M Unit) (pre : List String) (t : String)
    (post : List String) (e : Err) (tr1 : List Call)
    (hpre : ∀ x ∈ pre, (step x).res = .ok ())
    (ht : step t = ⟨.error e, tr1⟩) :
    lib_loop step (pre ++ t :: post)
      = ⟨.error e, (pre.flatMap fun x => (step x).calls) ++ tr1⟩ := by
  induction pre with
  | nil =>
      unfold lib_loop
      simp only [List.nil_append]
      rw [ht]
      simp
  | cons x xs ih =>
      have hx := hpre x (List.mem_cons_self x xs)
      have ih' := ih (fun y hy => hpre y (List.mem_cons_of_mem x hy))
      show lib_loop step (x :: (xs ++ t :: post)) = _
      unfold lib_loop
      rw [M_bind_eta]
      simp only [hx]
      rw [ih']
      simp [List.append_assoc]

/-- Claim C10: `library_add` and `library_remove` with several targets are
not atomic: targets are processed strictly in list order (each target's
block of calls — resolution then remote mutation — precedes the next
target's), and when a later target fails, the error propagates while the
trace keeps the earlier targets' mutations and contains nothing after the
failure — no rollback. -/
theorem C10_library_nonatomic (env : Env) (cmd : Cmd) (kind : String)
    (pre : List String) (t : String) (post : List String)
    (hk : cmd.kind = some kind) (hts : cmd.targets = some (pre ++ t :: post)) :
    (∀ e tr1, (∀ x ∈ pre, (lib_add_step env cmd kind x).res = .ok ()) →
        lib_add_step env cmd kind t = ⟨.error e, tr1⟩ →
        action_library_add env cmd
          = ⟨.error e, (pre.flatMap fun x => (lib_add_step env cmd kind x).calls) ++ tr1⟩) ∧
    (∀ e tr1, (∀ x ∈ pre, (lib_remove_step env cmd kind x).res = .ok ()) →
        lib_remove_step env cmd kind t = ⟨.error e, tr1⟩ →
        action_library_remove env cmd
          = ⟨.error e, (pre.flatMap fun x => (lib_remove_step env cmd kind x).calls) ++ tr1⟩) := by
  constructor
  · intro e tr1 hpre ht
    unfold action_library_add
    rw [hk, hts]
    simp only [getReq_some, M_bind_ok, List.nil_append]
    rw [lib_loop_fail (lib_add_step env cmd kind) pre t post e tr1 hpre ht]
    simp [M.bind]
  · intro e tr1 hpre ht
    unfold action_library_remove
    rw [hk, hts]
    simp only [getReq_some, M_bind_ok, List.nil_append]
    rw [lib_loop_fail (lib_remove_step env cmd kind) pre t post e tr1 hpre ht]
    simp [M.bind]

theorem C10_witness :
    action_library_add envFailW
        { action := some "library_add", kind := some "track", targets := some ["Karma Police", "missing"] }
      = ⟨.error (.noResults "missing"),
         [.querySongs "Karma Police" 1 0, .likeSong "found123", .querySongs "missing" 1 0]⟩ := by
  have h := (C10_library_nonatomic envFailW
    { action := some "library_add", kind := some "track", targets := some ["Karma Police", "missing"] }
    "track" ["Karma Police"] "missing" [] rfl rfl).1
    (.noResults "missing") [.querySongs "missing" 1 0]
    (by
      intro x hx
      rw [List.mem_singleton] at hx
      subst hx
      rfl)
    rfl
  rw [h]
  rfl

end Clautify
